import Mathlib

/-!
Verification of the forecast fetcher `src/python-ftp.py`.

The program is shallowly embedded as pure Lean functions.  The remote FTP
server is abstracted as a record of responses: each protocol step either
succeeds or fails with an error message, and the retrieval step additionally
delivers the sequence of text lines handed to the line callback before it
completes or fails.  A run of the program is modelled as a trace of observable
events (network steps, standard-output writes, standard-error writes, process
exit) together with the value, if any, returned by `fetch_bom_forecast`.
-/

namespace PythonFTP

/-- Observable events of one run of the program. -/
inductive Event where
  | connect : Event
  | login : Event
  | cwdEv : String → Event
  | retrCmd : String → Event
  | quit : Event
  | stdout : String → Event
  | stderr : String → Event
  | exit : Nat → Event
  deriving DecidableEq

/-- Hardcoded host, from the source. -/
def ftp_host : String := "ftp.bom.gov.au"

/-- Hardcoded remote directory, from the source. -/
def ftp_dir : String := "/anon/gen/fwo/"

/-- Hardcoded connection timeout in seconds, from the source. -/
def ftp_timeout : Nat := 30

/-- Abstract FTP server: the outcome of each protocol step.  `retr` takes the
full command string sent on the wire and yields the lines delivered to the
line callback together with whether the transfer completed or failed. -/
structure FTPServer where
  connect : Except String Unit
  login : Except String Unit
  cwd : String → Except String Unit
  retr : String → List String × Except String Unit

/-- The line callback of `fetch_bom_forecast`: append the received line to the
buffer only while the buffer holds fewer than 100 entries. -/
def handle_line (lines : List String) (line : String) : List String :=
  if lines.length < 100 then lines ++ [line] else lines

/-- The message printed to standard error on any fetch failure. -/
def failMsg (e : String) : String := "FTP connection or operation failed: " ++ e

/-- Trace and result of the failure path: the events so far, then the error
line on standard error, then process exit with status 1; nothing is returned. -/
def failTrace (evs : List Event) (e : String) : List Event × Option String :=
  (evs ++ [Event.stderr (failMsg e), Event.exit 1], none)

/-- `fetch_bom_forecast`: connect, log in anonymously, change to `ftp_dir`,
retrieve the named file line by line through `handle_line`, quit, print the
confirmation and the joined lines, and return the joined lines.  Any failure
produces the failure trace instead. -/
def fetch_bom_forecast (server : FTPServer) (ftp_file : String) :
    List Event × Option String :=
  match server.connect with
  | .error e => failTrace [] e
  | .ok _ =>
    match server.login with
    | .error e => failTrace [Event.connect] e
    | .ok _ =>
      match server.cwd ftp_dir with
      | .error e => failTrace [Event.connect, Event.login] e
      | .ok _ =>
        match server.retr ("RETR " ++ ftp_file) with
        | (_, .error e) =>
            failTrace [Event.connect, Event.login, Event.cwdEv ftp_dir,
              Event.retrCmd ("RETR " ++ ftp_file)] e
        | (delivered, .ok _) =>
            let lines := delivered.foldl handle_line []
            let text := String.intercalate ("\n") lines
            ([Event.connect, Event.login, Event.cwdEv ftp_dir,
              Event.retrCmd ("RETR " ++ ftp_file), Event.quit,
              Event.stdout ("FTP connection closed."),
              Event.stdout ("Fetched forecast data:"),
              Event.stdout text], some text)

/-- The usage message of the `__main__` block. -/
def usageMsg : String := "Usage: python python-ftp.py <ftp_file>"

/-- The `__main__` block: with fewer than two entries in `argv` (program name
included) print the usage message to standard error and exit with status 1;
otherwise fetch `argv[1]` and print the returned forecast. -/
def run_main (argv : List String) (server : FTPServer) : List Event :=
  match argv with
  | _ :: file :: _ =>
    match fetch_bom_forecast server file with
    | (tr, some forecast) => tr ++ [Event.stdout forecast]
    | (tr, none) => tr
  | _ => [Event.stderr usageMsg, Event.exit 1]

/-- The strings written to standard output, in order, in a trace. -/
def stdoutOf : List Event → List String
  | [] => []
  | Event.stdout s :: rest => s :: stdoutOf rest
  | _ :: rest => stdoutOf rest

/-- The strings written to standard error, in order, in a trace. -/
def stderrOf : List Event → List String
  | [] => []
  | Event.stderr s :: rest => s :: stderrOf rest
  | _ :: rest => stderrOf rest

/-- A fully cooperating server that serves `ls` for every retrieval. -/
def okServer (ls : List String) : FTPServer :=
  { connect := .ok ()
    login := .ok ()
    cwd := fun _ => .ok ()
    retr := fun _ => (ls, .ok ()) }

/-- Folding the line callback over the delivered lines appends exactly the
lines that fit under the 100-entry cap. -/
theorem foldl_handle_line (ls acc : List String) :
    ls.foldl handle_line acc = acc ++ ls.take (100 - acc.length) := by
  induction ls generalizing acc with
  | nil => simp
  | cons l ls ih =>
    simp only [List.foldl_cons, handle_line]
    by_cases h : acc.length < 100
    · rw [if_pos h, ih]
      have h1 : 100 - acc.length = (100 - (acc ++ [l]).length) + 1 := by
        simp only [List.length_append, List.length_singleton]
        omega
      rw [h1, List.take_succ_cons, List.append_assoc]
      simp
    · rw [if_neg h, ih]
      have h1 : 100 - acc.length = 0 := by omega
      rw [h1]
      simp

/-- Starting from the empty buffer, the transfer retains the first 100 lines. -/
theorem retr_buffer_take (ls : List String) :
    ls.foldl handle_line [] = ls.take 100 := by
  simpa using foldl_handle_line ls []

/-- C1: on success `fetch_bom_forecast` returns exactly the first
`min(n, 100)` lines of the remote file joined with newline separators and
nothing else: with fewer than 100 lines it is the full content newline-joined,
and with 0 lines it is the empty string, with no trailing modification. -/
theorem fetch_returns_first_100_lines (server : FTPServer) (f : String)
    (ls : List String)
    (hc : server.connect = .ok ()) (hl : server.login = .ok ())
    (hd : server.cwd ftp_dir = .ok ())
    (hr : server.retr ("RETR " ++ f) = (ls, .ok ())) :
    (fetch_bom_forecast server f).2
        = some (String.intercalate ("\n") (ls.take 100))
      ∧ (ls.length < 100 →
          (fetch_bom_forecast server f).2 = some (String.intercalate ("\n") ls))
      ∧ (ls = [] → (fetch_bom_forecast server f).2 = some "") := by
  have hmain : (fetch_bom_forecast server f).2
      = some (String.intercalate ("\n") (ls.take 100)) := by
    simp [fetch_bom_forecast, hc, hl, hd, hr, retr_buffer_take]
  refine ⟨hmain, fun h => ?_, fun h => ?_⟩
  · rwa [List.take_of_length_le (Nat.le_of_lt h)] at hmain
  · subst h
    simpa using hmain

/-- Witness for C1 at a concrete two-line file. -/
theorem fetch_returns_first_100_lines_witness :
    (fetch_bom_forecast (okServer ["a", "b"]) ("x.txt")).2
        = some (String.intercalate ("\n") (["a", "b"].take 100))
      ∧ ((["a", "b"] : List String).length < 100 →
          (fetch_bom_forecast (okServer ["a", "b"]) ("x.txt")).2
            = some (String.intercalate ("\n") ["a", "b"]))
      ∧ ((["a", "b"] : List String) = [] →
          (fetch_bom_forecast (okServer ["a", "b"]) ("x.txt")).2 = some "") :=
  fetch_returns_first_100_lines (okServer ["a", "b"]) ("x.txt") ["a", "b"]
    rfl rfl rfl rfl

/-- C3: the line buffer never exceeds 100 entries: a line is appended only
while the buffer holds fewer than 100 entries and is dropped otherwise, the
cap is preserved by every callback invocation, and every buffer reachable
from the empty one respects the cap. -/
theorem line_buffer_cap (acc : List String) (l : String) (ls : List String)
    (h : acc.length ≤ 100) :
    (handle_line acc l).length ≤ 100
      ∧ (acc.length < 100 → handle_line acc l = acc ++ [l])
      ∧ (¬ acc.length < 100 → handle_line acc l = acc)
      ∧ (ls.foldl handle_line []).length ≤ 100 := by
  refine ⟨?_, fun hlt => ?_, fun hge => ?_, ?_⟩
  · unfold handle_line
    by_cases hlt : acc.length < 100
    · rw [if_pos hlt]
      simp only [List.length_append, List.length_singleton]
      omega
    · rw [if_neg hlt]
      exact h
  · unfold handle_line
    rw [if_pos hlt]
  · unfold handle_line
    rw [if_neg hge]
  · rw [retr_buffer_take]
    simp

/-- Witness for C3 at a concrete buffer and delivered-line list. -/
theorem line_buffer_cap_witness :
    (handle_line ["a"] ("b")).length ≤ 100
      ∧ ((["x", "y", "z"] : List String).foldl handle_line []).length ≤ 100 :=
  ⟨(line_buffer_cap ["a"] ("b") ["x", "y", "z"] (by decide)).1,
   (line_buffer_cap ["a"] ("b") ["x", "y", "z"] (by decide)).2.2.2⟩

/-- C10: once the buffer holds 100 or more entries, the line callback is a
no-op: it returns the buffer unchanged and raises no error. -/
theorem handle_line_noop_at_cap (acc : List String) (l : String)
    (h : 100 ≤ acc.length) :
    handle_line acc l = acc := by
  unfold handle_line
  rw [if_neg]
  omega

/-- Witness for C10 at a concrete full buffer. -/
theorem handle_line_noop_at_cap_witness :
    handle_line (List.replicate 101 ("w")) ("z") = List.replicate 101 ("w") :=
  handle_line_noop_at_cap (List.replicate 101 ("w")) ("z") (by simp)

/-- A server whose connection attempt fails, for concrete failure runs. -/
def badServer : FTPServer :=
  { connect := .error ("boom")
    login := .ok ()
    cwd := fun _ => .ok ()
    retr := fun _ => ([], .ok ()) }

/-- C2: every failure during connection, authentication, directory change or
transfer is caught as one generic failure: the run returns no value, writes
the single standard-error line `FTP connection or operation failed: <details>`
and exits with the non-zero status 1. -/
theorem fetch_failure_exits (server : FTPServer) (f e : String) :
    (server.connect = .error e →
        (fetch_bom_forecast server f).2 = none
          ∧ stderrOf (fetch_bom_forecast server f).1 = [failMsg e]
          ∧ Event.exit 1 ∈ (fetch_bom_forecast server f).1)
      ∧ (server.connect = .ok () → server.login = .error e →
          (fetch_bom_forecast server f).2 = none
            ∧ stderrOf (fetch_bom_forecast server f).1 = [failMsg e]
            ∧ Event.exit 1 ∈ (fetch_bom_forecast server f).1)
      ∧ (server.connect = .ok () → server.login = .ok () →
          server.cwd ftp_dir = .error e →
          (fetch_bom_forecast server f).2 = none
            ∧ stderrOf (fetch_bom_forecast server f).1 = [failMsg e]
            ∧ Event.exit 1 ∈ (fetch_bom_forecast server f).1)
      ∧ (∀ delivered, server.connect = .ok () → server.login = .ok () →
          server.cwd ftp_dir = .ok () →
          server.retr ("RETR " ++ f) = (delivered, .error e) →
          (fetch_bom_forecast server f).2 = none
            ∧ stderrOf (fetch_bom_forecast server f).1 = [failMsg e]
            ∧ Event.exit 1 ∈ (fetch_bom_forecast server f).1) := by
  refine ⟨fun h1 => ?_, fun h1 h2 => ?_, fun h1 h2 h3 => ?_,
    fun ds h1 h2 h3 h4 => ?_⟩ <;>
    simp [fetch_bom_forecast, failTrace, stderrOf, h1, *]

/-- Witness for C2 at a concrete failing connection. -/
theorem fetch_failure_exits_witness :
    (fetch_bom_forecast badServer ("x")).2 = none
      ∧ stderrOf (fetch_bom_forecast badServer ("x")).1 = [failMsg ("boom")]
      ∧ Event.exit 1 ∈ (fetch_bom_forecast badServer ("x")).1 :=
  (fetch_failure_exits badServer ("x") ("boom")).1 rfl

/-- C4: with zero command-line arguments the program writes the usage message
to standard error and exits with status 1, and no connection is attempted. -/
theorem zero_args_usage (prog : String) (server : FTPServer) :
    run_main [prog] server = [Event.stderr usageMsg, Event.exit 1]
      ∧ Event.connect ∉ run_main [prog] server := by
  refine ⟨rfl, ?_⟩
  simp [run_main]

/-- C5: on success, standard output receives in order the fixed
connection-closed notice, the fixed header, the fetched text, and the same
text again from the driver, where the printed text equals the value returned
by `fetch_bom_forecast`. -/
theorem success_stdout_sequence (prog f : String) (rest : List String)
    (server : FTPServer) (ls : List String)
    (hc : server.connect = .ok ()) (hl : server.login = .ok ())
    (hd : server.cwd ftp_dir = .ok ())
    (hr : server.retr ("RETR " ++ f) = (ls, .ok ())) :
    stdoutOf (run_main (prog :: f :: rest) server)
        = ["FTP connection closed.", "Fetched forecast data:",
           String.intercalate ("\n") (ls.take 100),
           String.intercalate ("\n") (ls.take 100)]
      ∧ (fetch_bom_forecast server f).2
          = some (String.intercalate ("\n") (ls.take 100)) := by
  constructor
  · simp [run_main, fetch_bom_forecast, hc, hl, hd, hr, retr_buffer_take,
      stdoutOf]
  · simp [fetch_bom_forecast, hc, hl, hd, hr, retr_buffer_take]

/-- Witness for C5 at a concrete two-line file. -/
theorem success_stdout_sequence_witness :
    stdoutOf (run_main ["prog", "IDA.txt"] (okServer ["l1", "l2"]))
        = ["FTP connection closed.", "Fetched forecast data:",
           String.intercalate ("\n") (["l1", "l2"].take 100),
           String.intercalate ("\n") (["l1", "l2"].take 100)]
      ∧ (fetch_bom_forecast (okServer ["l1", "l2"]) ("IDA.txt")).2
          = some (String.intercalate ("\n") (["l1", "l2"].take 100)) :=
  success_stdout_sequence ("prog") ("IDA.txt") [] (okServer ["l1", "l2"])
    ["l1", "l2"] rfl rfl rfl rfl

/-- C6: the run is a deterministic function of the filename and of the remote
responses: two invocations whose servers answer each step of the session
identically produce identical traces and identical returned text, whatever
the program name or extra arguments. -/
theorem deterministic_in_file_and_content (p1 p2 f : String)
    (r1 r2 : List String) (s1 s2 : FTPServer)
    (hc : s1.connect = s2.connect) (hl : s1.login = s2.login)
    (hd : s1.cwd ftp_dir = s2.cwd ftp_dir)
    (hr : s1.retr ("RETR " ++ f) = s2.retr ("RETR " ++ f)) :
    run_main (p1 :: f :: r1) s1 = run_main (p2 :: f :: r2) s2
      ∧ (fetch_bom_forecast s1 f).2 = (fetch_bom_forecast s2 f).2 := by
  have hfetch : fetch_bom_forecast s1 f = fetch_bom_forecast s2 f := by
    unfold fetch_bom_forecast
    rw [hc, hl, hd, hr]
  exact ⟨by simp only [run_main, hfetch], by rw [hfetch]⟩

/-- Witness for C6: two runs with different extra arguments, same server. -/
theorem deterministic_in_file_and_content_witness :
    run_main ["p", "IDN.txt"] (okServer ["a"])
        = run_main ["q", "IDN.txt", "z"] (okServer ["a"])
      ∧ (fetch_bom_forecast (okServer ["a"]) ("IDN.txt")).2
          = (fetch_bom_forecast (okServer ["a"]) ("IDN.txt")).2 :=
  deterministic_in_file_and_content ("p") ("q") ("IDN.txt") [] ["z"]
    (okServer ["a"]) (okServer ["a"]) rfl rfl rfl rfl

/-- C7: no validation or transformation of the filename happens before use:
the retrieval command issued to the server is exactly `RETR ` followed by the
filename unchanged, and no other retrieval command is issued. -/
theorem retr_command_verbatim (server : FTPServer) (f : String)
    (hc : server.connect = .ok ()) (hl : server.login = .ok ())
    (hd : server.cwd ftp_dir = .ok ()) :
    Event.retrCmd ("RETR " ++ f) ∈ (fetch_bom_forecast server f).1
      ∧ ∀ c, Event.retrCmd c ∈ (fetch_bom_forecast server f).1 →
          c = "RETR " ++ f := by
  unfold fetch_bom_forecast
  rw [hc, hl, hd]
  rcases hr : server.retr ("RETR " ++ f) with ⟨ds, res⟩
  cases res with
  | error e =>
    constructor
    · simp [failTrace]
    · intro c hcm
      simp [failTrace] at hcm
      exact hcm
  | ok u =>
    constructor
    · simp
    · intro c hcm
      simp at hcm
      exact hcm

/-- Witness for C7 at a concrete filename. -/
theorem retr_command_verbatim_witness :
    Event.retrCmd ("RETR " ++ "IDV.txt")
      ∈ (fetch_bom_forecast (okServer []) ("IDV.txt")).1 :=
  (retr_command_verbatim (okServer []) ("IDV.txt") rfl rfl rfl).1

/-- C8: on success the explicit session termination (quit) occurs after the
transfer and before every standard-output write and before the joined text is
returned: the trace splits around the quit event, with no standard output
before it. -/
theorem quit_before_output_and_return (server : FTPServer) (f : String)
    (ls : List String)
    (hc : server.connect = .ok ()) (hl : server.login = .ok ())
    (hd : server.cwd ftp_dir = .ok ())
    (hr : server.retr ("RETR " ++ f) = (ls, .ok ())) :
    fetch_bom_forecast server f
        = ([Event.connect, Event.login, Event.cwdEv ftp_dir,
            Event.retrCmd ("RETR " ++ f)]
            ++ Event.quit ::
              [Event.stdout ("FTP connection closed."),
               Event.stdout ("Fetched forecast data:"),
               Event.stdout (String.intercalate ("\n") (ls.take 100))],
           some (String.intercalate ("\n") (ls.take 100)))
      ∧ stdoutOf [Event.connect, Event.login, Event.cwdEv ftp_dir,
          Event.retrCmd ("RETR " ++ f)] = [] := by
  constructor
  · simp [fetch_bom_forecast, hc, hl, hd, hr, retr_buffer_take]
  · simp [stdoutOf]

/-- Witness for C8 at a concrete one-line file. -/
theorem quit_before_output_and_return_witness :
    fetch_bom_forecast (okServer ["ln"]) ("IDQ.txt")
        = ([Event.connect, Event.login, Event.cwdEv ftp_dir,
            Event.retrCmd ("RETR " ++ "IDQ.txt")]
            ++ Event.quit ::
              [Event.stdout ("FTP connection closed."),
               Event.stdout ("Fetched forecast data:"),
               Event.stdout (String.intercalate ("\n") (["ln"].take 100))],
           some (String.intercalate ("\n") (["ln"].take 100)))
      ∧ stdoutOf [Event.connect, Event.login, Event.cwdEv ftp_dir,
          Event.retrCmd ("RETR " ++ "IDQ.txt")] = [] :=
  quit_before_output_and_return (okServer ["ln"]) ("IDQ.txt") ["ln"]
    rfl rfl rfl rfl

/-- A fetch failure message never coincides with the usage message. -/
theorem failMsg_ne_usage (e : String) : failMsg e ≠ usageMsg := by
  intro h
  have h1 : (failMsg e).data.take 4 = usageMsg.data.take 4 := by rw [h]
  have h2 : (failMsg e).data
      = "FTP connection or operation failed: ".data ++ e.data := by
    simp [failMsg, String.data_append]
  rw [h2, List.take_append_of_le_length (by decide)] at h1
  revert h1
  decide

/-- No trace produced by `fetch_bom_forecast` contains the usage message. -/
theorem no_usage_in_fetch (server : FTPServer) (f : String) :
    Event.stderr usageMsg ∉ (fetch_bom_forecast server f).1 := by
  unfold fetch_bom_forecast
  cases hc : server.connect with
  | error e =>
    simp only [failTrace]
    intro hm
    simp at hm
    exact failMsg_ne_usage e hm.symm
  | ok u =>
    cases hl : server.login with
    | error e =>
      simp only [failTrace]
      intro hm
      simp at hm
      exact failMsg_ne_usage e hm.symm
    | ok v =>
      cases hd : server.cwd ftp_dir with
      | error e =>
        simp only [failTrace]
        intro hm
        simp at hm
        exact failMsg_ne_usage e hm.symm
      | ok w =>
        rcases hr : server.retr ("RETR " ++ f) with ⟨ds, res⟩
        cases res with
        | error e =>
          simp only [failTrace]
          intro hm
          simp at hm
          exact failMsg_ne_usage e hm.symm
        | ok u2 => simp

/-- C9: with more than one command-line argument no usage error is reported;
every argument after the first is ignored and only `argv[1]` is used. -/
theorem extra_args_ignored (prog f : String) (rest : List String)
    (server : FTPServer) :
    run_main (prog :: f :: rest) server = run_main [prog, f] server
      ∧ Event.stderr usageMsg ∉ run_main (prog :: f :: rest) server := by
  constructor
  · rfl
  · have hno := no_usage_in_fetch server f
    simp only [run_main]
    rcases hfetch : fetch_bom_forecast server f with ⟨tr, ret⟩
    rw [hfetch] at hno
    cases ret with
    | none => exact hno
    | some t =>
      simp only [List.mem_append, List.mem_singleton]
      rintro (h | h)
      · exact hno h
      · exact Event.noConfusion h

end PythonFTP
